import Mathlib

/-
Verification of the auth-system repository (FastAPI + SQLAlchemy session-cookie
authentication) against its specification.

Shallow embedding conventions:
- Python strings are `List Char` (abbreviated `Str`); `str` converts a literal.
- `datetime` values are `Nat` seconds since the epoch; `datetime.utcnow()` is an
  explicit `now` parameter, and `timedelta(hours=h)` is `h * 3600` seconds.
- The database is a record of the two tables (lists of rows); `db.commit()` is the
  returned state, `db.rollback()` returns the pre-call state.
- Randomness (`secrets.token_hex`) is an explicit parameter: the fresh token is
  passed in rather than drawn.
- A Python function that can raise returns `Except`; a caught exception class is
  matched and turned back into a value, an uncaught one stays `Except.error`.
-/

namespace AuthSystem

/-- Python strings, embedded as lists of characters. -/
abbrev Str : Type := List Char

/-- Converts a Lean string literal into the character-list representation. -/
def str (s : String) : Str := s.data

/-- Python str.lower, character by character (the emails in play are ASCII). -/
def lower (s : Str) : Str := s.map Char.toLower

/- ---------------------------------------------------------------------------
Argon2 password hashing (app/auth.py wraps the third-party argon2 library).
The library itself is not repository code; it is modelled as an ideal hasher:
`ph.hash` produces a PHC-format credential string (deterministic salt), and
`ph.verify` raises InvalidHashError on a malformed credential string and
VerifyMismatchError on a non-matching password.
--------------------------------------------------------------------------- -/

/-- PHC-format header of an Argon2id credential string as produced by
PasswordHasher.hash with default parameters (salt fixed by the model). -/
def phcHeader : Str := str "$argon2id$v=19$m=65536,t=3,p=4$c2FsdA$"

/-- The exception classes of the argon2 library that PasswordHasher.verify raises:
argon2.exceptions.VerifyMismatchError and argon2.exceptions.InvalidHashError. -/
inductive Argon2Exception where
  | verifyMismatchError
  | invalidHashError
deriving Repr, DecidableEq

/-- Model of argon2 PasswordHasher.hash: an ideal collision-free digest, embedding
the password after the PHC header. -/
def ph_hash (password : Str) : Str := phcHeader ++ password

/-- Model of argon2 PasswordHasher.verify: InvalidHashError when the stored value is
not a validly formatted credential string, VerifyMismatchError when the password
does not match, success otherwise. -/
def ph_verify (password_hash password : Str) : Except Argon2Exception Unit :=
  if phcHeader.isPrefixOf password_hash then
    if password_hash.drop phcHeader.length == password then Except.ok ()
    else Except.error Argon2Exception.verifyMismatchError
  else Except.error Argon2Exception.invalidHashError

/-- app/auth.py hash_password: returns ph.hash(password). -/
def hash_password (password : Str) : Str := ph_hash password

/-- The exception classes listed in verify_password's except clause:
`except (VerifyMismatchError, InvalidHashError)`. -/
def caught_by_verify_password : Argon2Exception → Bool
  | Argon2Exception.verifyMismatchError => true
  | Argon2Exception.invalidHashError => true

/-- app/auth.py verify_password with the try/except made explicit: an exception not
listed in the except clause would surface as Except.error to the caller. -/
def verify_password_run (password password_hash : Str) : Except Argon2Exception Bool :=
  match ph_verify password_hash password with
  | Except.ok _ => Except.ok true
  | Except.error e =>
      if caught_by_verify_password e then Except.ok false else Except.error e

/-- app/auth.py verify_password: ph.verify inside try, returning True on success and
False when the raised exception is VerifyMismatchError or InvalidHashError. -/
def verify_password (password password_hash : Str) : Bool :=
  match ph_verify password_hash password with
  | Except.ok _ => true
  | Except.error Argon2Exception.verifyMismatchError => false
  | Except.error Argon2Exception.invalidHashError => false

/- ---------------------------------------------------------------------------
Data model (app/models.py). created_at columns are omitted: no embedded
operation reads them.
--------------------------------------------------------------------------- -/

/-- A row of the users table (app/models.py User): integer primary key, unique
email, password_hash. -/
structure UserRow where
  id : Nat
  email : Str
  password_hash : Str
deriving Repr, DecidableEq

/-- A row of the sessions table (app/models.py Session): integer primary key,
unique session_id token, user_id foreign key, expires_at timestamp. -/
structure SessionRow where
  id : Nat
  session_id : Str
  user_id : Nat
  expires_at : Nat
deriving Repr, DecidableEq

/-- Database state: the users and sessions tables. -/
structure DB where
  users : List UserRow
  sessions : List SessionRow
deriving Repr, DecidableEq

/-- app/config.py Settings, restricted to the fields the embedded operations read,
with the defaults of the source. -/
structure Settings where
  session_expire_hours : Nat := 24
  cookie_secure : Bool := false
  cookie_domain : Str := str "localhost"
  cookie_httponly : Bool := true
  cookie_samesite : Str := str "lax"
deriving Repr, DecidableEq

/-- Autoincrement primary-key assignment: one more than the largest id in use. -/
def nextId (ids : List Nat) : Nat := ids.foldr max 0 + 1

/- ---------------------------------------------------------------------------
Session operations (app/auth.py).
--------------------------------------------------------------------------- -/

/-- app/auth.py create_session: inserts a session row expiring
session_expire_hours after now and returns the session_id. The fresh random
token from generate_session_id is the session_id parameter. -/
def create_session (settings : Settings) (db : DB) (user_id : Nat) (now : Nat)
    (session_id : Str) : DB × Str :=
  let expires_at := now + settings.session_expire_hours * 3600
  let row : SessionRow :=
    { id := nextId (db.sessions.map SessionRow.id)
      session_id := session_id
      user_id := user_id
      expires_at := expires_at }
  ({ db with sessions := db.sessions ++ [row] }, session_id)

/-- app/auth.py get_user_from_session: first session row with this session_id and
expires_at strictly greater than now, then the user row with that user_id. -/
def get_user_from_session (db : DB) (session_id : Str) (now : Nat) : Option UserRow :=
  match db.sessions.find? (fun s => s.session_id == session_id && decide (s.expires_at > now)) with
  | none => none
  | some s => db.users.find? (fun u => u.id == s.user_id)

/-- app/auth.py delete_session: bulk delete of the rows with this session_id
(`result` is the row count the delete reports), then `return result > 0`. -/
def delete_session (db : DB) (session_id : Str) : DB × Bool :=
  let result := db.sessions.countP (fun s => s.session_id == session_id)
  ({ db with sessions := db.sessions.filter (fun s => !(s.session_id == session_id)) },
   decide (result > 0))

/-- Python runtime errors that the embedded code can raise. -/
inductive PyError where
  | nameError
deriving Repr, DecidableEq

/-- app/auth.py cleanup_expired_sessions: bulk delete of the rows with
expires_at at or before now, commit, then `return resultss` — the name
`resultss` is undefined (the delete bound `result`), so after the committed
delete the function raises NameError instead of returning the count. -/
def cleanup_expired_sessions (db : DB) (now : Nat) : DB × Except PyError Nat :=
  let _result := db.sessions.countP (fun s => decide (s.expires_at ≤ now))
  ({ db with sessions := db.sessions.filter (fun s => !(decide (s.expires_at ≤ now))) },
   Except.error PyError.nameError)

/- ---------------------------------------------------------------------------
Request validation (app/schemas.py).
--------------------------------------------------------------------------- -/

/-- app/schemas.py SignupRequest.validate_password: pydantic field validator that
runs before the route handler; a ValueError message becomes the Except.error
payload of the 422 response. -/
def validate_password (v : Str) : Except Str Str :=
  if v.length < 8 then Except.error (str "Password must be at least 8 characters")
  else if v.length > 128 then Except.error (str "Password too long")
  else Except.ok v

/- ---------------------------------------------------------------------------
Route handlers (app/routers/auth_router.py).
--------------------------------------------------------------------------- -/

/-- One response.set_cookie invocation with its attributes. -/
structure SetCookie where
  key : Str
  value : Str
  httponly : Bool
  secure : Bool
  samesite : Str
  max_age : Nat
  path : Str
  domain : Option Str
deriving Repr, DecidableEq

/-- app/routers/auth_router.py _set_session_cookie. -/
def set_session_cookie (settings : Settings) (session_id : Str) : SetCookie :=
  { key := str "session_id"
    value := session_id
    httponly := settings.cookie_httponly
    secure := settings.cookie_secure
    samesite := settings.cookie_samesite
    max_age := settings.session_expire_hours * 3600
    path := str "/"
    domain := if settings.cookie_domain ≠ str "localhost" then some settings.cookie_domain else none }

/-- app/routers/auth_router.py _clear_session_cookie: same cookie name, empty
value, max_age 0, and httponly written as the literal True. -/
def clear_session_cookie (settings : Settings) : SetCookie :=
  { key := str "session_id"
    value := str ""
    httponly := true
    secure := settings.cookie_secure
    samesite := settings.cookie_samesite
    max_age := 0
    path := str "/"
    domain := if settings.cookie_domain ≠ str "localhost" then some settings.cookie_domain else none }

/-- Outcome of the signup endpoint: resulting database, HTTP status, error detail,
and the cookie set on the response (none when no set_cookie call was made). -/
structure SignupOutcome where
  db : DB
  status : Nat
  detail : Option Str
  cookie : Option SetCookie
deriving Repr, DecidableEq

/-- app/routers/auth_router.py signup handler body (after pydantic validation):
lowercase the email, hash the password, insert the user; an IntegrityError on the
unique email column (a row with this email already exists) rolls back and raises
409 "Email already registered"; otherwise create a session and set the cookie. -/
def signup (settings : Settings) (db : DB) (now : Nat) (new_session_id : Str)
    (email password : Str) : SignupOutcome :=
  let email' := lower email
  let password_hash := hash_password password
  if db.users.any (fun u => u.email == email') then
    { db := db, status := 409, detail := some (str "Email already registered"), cookie := none }
  else
    let user : UserRow :=
      { id := nextId (db.users.map UserRow.id), email := email', password_hash := password_hash }
    let db1 : DB := { db with users := db.users ++ [user] }
    let r := create_session settings db1 user.id now new_session_id
    { db := r.1, status := 201, detail := none, cookie := some (set_session_cookie settings r.2) }

/-- The full signup endpoint: pydantic validation of SignupRequest.password first
(422 with the validator message, before any handler code runs), then the handler. -/
def signup_endpoint (settings : Settings) (db : DB) (now : Nat) (new_session_id : Str)
    (email password : Str) : SignupOutcome :=
  match validate_password password with
  | Except.error msg => { db := db, status := 422, detail := some msg, cookie := none }
  | Except.ok _ => signup settings db now new_session_id email password

/-- Outcome of the login endpoint; verify_invoked instruments whether
verify_password was called while handling the request. -/
structure LoginOutcome where
  db : DB
  status : Nat
  detail : Option Str
  cookie : Option SetCookie
  verify_invoked : Bool
deriving Repr, DecidableEq

/-- app/routers/auth_router.py login: lowercase the email, look up the user, then
`if not user or not verify_password(request.password, user.password_hash)`. The
Python `or` short-circuits: when the lookup misses, verify_password is never
invoked and the handler goes straight to the 401. -/
def login (settings : Settings) (db : DB) (now : Nat) (new_session_id : Str)
    (email password : Str) : LoginOutcome :=
  let email' := lower email
  match db.users.find? (fun u => u.email == email') with
  | none =>
      { db := db, status := 401, detail := some (str "Invalid credentials")
        cookie := none, verify_invoked := false }
  | some user =>
      if verify_password password user.password_hash then
        let r := create_session settings db user.id now new_session_id
        { db := r.1, status := 200, detail := none
          cookie := some (set_session_cookie settings r.2), verify_invoked := true }
      else
        { db := db, status := 401, detail := some (str "Invalid credentials")
          cookie := none, verify_invoked := true }

/- ---------------------------------------------------------------------------
Helper lemmas.
--------------------------------------------------------------------------- -/

/-- Characterization of verify_password: true exactly when the stored value is a
validly formatted credential string whose embedded digest matches the password. -/
theorem verify_password_eq_check (password password_hash : Str) :
    verify_password password password_hash
      = (phcHeader.isPrefixOf password_hash
          && (password_hash.drop phcHeader.length == password)) := by
  unfold verify_password ph_verify
  by_cases h1 : phcHeader.isPrefixOf password_hash = true
  · by_cases h2 : (password_hash.drop phcHeader.length == password) = true
    · simp [h1, h2]
    · simp [h1, h2]
  · simp [h1]

/-- find? over an append whose left part everywhere falsifies the predicate. -/
theorem find?_append_left_none {α : Type} (p : α → Bool) (l₁ l₂ : List α)
    (h : ∀ x ∈ l₁, p x = false) : (l₁ ++ l₂).find? p = l₂.find? p := by
  rw [List.find?_append]
  have : l₁.find? p = none := List.find?_eq_none.mpr (fun x hx => by simp [h x hx])
  rw [this]
  rfl

/-- A password inside the inclusive 8–128 length range passes the pydantic
validator unchanged. -/
theorem validate_password_ok (p : Str) (h8 : 8 ≤ p.length) (h128 : p.length ≤ 128) :
    validate_password p = Except.ok p := by
  unfold validate_password
  rw [if_neg (by omega), if_neg (by omega)]

/-- When validation passes, the signup endpoint is the signup handler. -/
theorem signup_endpoint_valid (st : Settings) (db : DB) (t : Nat) (k e p : Str)
    (hv : validate_password p = Except.ok p) :
    signup_endpoint st db t k e p = signup st db t k e p := by
  unfold signup_endpoint
  rw [hv]

/-- Signup on a fresh (lowercased) email: inserts the user row, creates the
session, sets the cookie, status 201. -/
theorem signup_fresh (st : Settings) (db : DB) (t : Nat) (k e p : Str)
    (hany : (db.users.any fun u => u.email == lower e) = false) :
    signup st db t k e p
      = { db := { users := db.users
                    ++ [{ id := nextId (db.users.map UserRow.id),
                          email := lower e,
                          password_hash := hash_password p }],
                  sessions := db.sessions
                    ++ [{ id := nextId (db.sessions.map SessionRow.id),
                          session_id := k,
                          user_id := nextId (db.users.map UserRow.id),
                          expires_at := t + st.session_expire_hours * 3600 }] },
          status := 201, detail := none, cookie := some (set_session_cookie st k) } := by
  unfold signup create_session
  simp [hany]

/-- Signup on an already-present (lowercased) email: IntegrityError, rollback,
409, no session, no cookie. -/
theorem signup_dup (st : Settings) (db : DB) (t : Nat) (k e p : Str)
    (hany : (db.users.any fun u => u.email == lower e) = true) :
    signup st db t k e p
      = { db := db, status := 409
          detail := some (str "Email already registered"), cookie := none } := by
  unfold signup
  simp [hany]

/- ---------------------------------------------------------------------------
Claim theorems.
--------------------------------------------------------------------------- -/

/-- Claim C1: cleanup_expired_sessions does delete exactly the session rows with
expires_at at or before now (keeping the rest), but it then executes
`return resultss`, which reads an undefined name: the function raises NameError
after the committed delete and never returns the count, contradicting the claim
that it completes normally and returns the number of removed rows. -/
theorem C1_cleanup_expired_sessions_behavior (db : DB) (now : Nat) :
    (cleanup_expired_sessions db now).1.sessions
        = db.sessions.filter (fun s => !(decide (s.expires_at ≤ now)))
    ∧ (cleanup_expired_sessions db now).2 = Except.error PyError.nameError :=
  ⟨rfl, rfl⟩

/-- Claim C2, evaluated at the failing input: logging in with an email that matches
no account does return the uniform 401 "Invalid credentials", but verify_password
is never invoked — `if not user or not verify_password(...)` short-circuits on the
missing user — contradicting the claim that credential verification is always
invoked. -/
theorem C2_login_skips_verification_when_email_unknown :
    (login {} { users := [], sessions := [] } 0 (str "t")
        (str "ghost@example.com") (str "password1")).status = 401
    ∧ (login {} { users := [], sessions := [] } 0 (str "t")
        (str "ghost@example.com") (str "password1")).detail
        = some (str "Invalid credentials")
    ∧ (login {} { users := [], sessions := [] } 0 (str "t")
        (str "ghost@example.com") (str "password1")).verify_invoked = false :=
  ⟨rfl, rfl, rfl⟩

/-- Claim C3: verify_password never lets an exception escape — every exception the
hasher raises is in the except clause, so the run result is always Except.ok of
the returned boolean — and that boolean is true only for a validly formatted
stored credential whose digest matches: any mismatch and any malformed stored
value yield false, indistinguishably. -/
theorem C3_verify_password_total_and_uniform (password password_hash : Str) :
    verify_password_run password password_hash
        = Except.ok (verify_password password password_hash)
    ∧ verify_password password password_hash
        = (phcHeader.isPrefixOf password_hash
            && (password_hash.drop phcHeader.length == password)) := by
  constructor
  · cases hv : ph_verify password_hash password with
    | ok u => simp [verify_password_run, verify_password, hv]
    | error e =>
        cases e <;> simp [verify_password_run, verify_password, hv, caught_by_verify_password]
  · exact verify_password_eq_check password password_hash

/-- Claim C4: for any password of length 8 through 128, verifying it against the
credential produced by hashing it succeeds. -/
theorem C4_hash_verify_roundtrip (p : Str) (_h8 : 8 ≤ p.length) (_h128 : p.length ≤ 128) :
    verify_password p (hash_password p) = true := by
  rw [verify_password_eq_check]
  have h1 : phcHeader.isPrefixOf (hash_password p) = true := by
    rw [List.isPrefixOf_iff_prefix]
    exact List.prefix_append phcHeader p
  have h2 : ((hash_password p).drop phcHeader.length == p) = true := by
    show ((phcHeader ++ p).drop phcHeader.length == p) = true
    rw [List.drop_left]
    exact beq_self_eq_true p
  rw [h1, h2]
  rfl

/-- Witness for claim C4 at the concrete 9-character password "hunter234". -/
theorem C4_hash_verify_roundtrip_witness :
    8 ≤ (str "hunter234").length ∧ (str "hunter234").length ≤ 128
    ∧ verify_password (str "hunter234") (hash_password (str "hunter234")) = true :=
  ⟨by decide, by decide, C4_hash_verify_roundtrip (str "hunter234") (by decide) (by decide)⟩

/-- Claim C8: delete_session reports true exactly when some row carried the token,
removes exactly the rows with that token, and a second call on the same token
reports false — logout is idempotent and never raises. -/
theorem C8_delete_session_exact_and_idempotent (db : DB) (sid : Str) :
    ((delete_session db sid).2 = true ↔ ∃ s ∈ db.sessions, s.session_id = sid)
    ∧ (delete_session db sid).1.sessions
        = db.sessions.filter (fun s => !(s.session_id == sid))
    ∧ (delete_session (delete_session db sid).1 sid).2 = false := by
  refine ⟨?_, rfl, ?_⟩
  · show (decide (0 < db.sessions.countP fun s => s.session_id == sid) = true ↔ _)
    rw [decide_eq_true_eq, List.countP_pos_iff]
    constructor
    · rintro ⟨s, hs, hp⟩
      exact ⟨s, hs, by simpa using hp⟩
    · rintro ⟨s, hs, hp⟩
      exact ⟨s, hs, by simp [hp]⟩
  · show decide (0 < (db.sessions.filter fun s => !(s.session_id == sid)).countP
        fun s => s.session_id == sid) = false
    rw [decide_eq_false_iff_not]
    rw [List.countP_filter]
    have hz : (db.sessions.countP fun s => (s.session_id == sid) && !(s.session_id == sid)) = 0 :=
      List.countP_eq_zero.mpr (fun s _ => by simp)
    omega

/-- Claim C5: with session_expire_hours = 24, creating a session at time T appends
a row whose expires_at is T + 24 hours; provided the token is fresh and uid is the
id of account u, resolving the token at any time strictly before expires_at
returns u and at expires_at or later returns none. -/
theorem C5_session_expiry_boundary (st : Settings) (db : DB) (uid T t : Nat)
    (u : UserRow) (sid : Str)
    (hexp : st.session_expire_hours = 24)
    (hfresh : ∀ s ∈ db.sessions, s.session_id ≠ sid)
    (hu : db.users.find? (fun v => v.id == uid) = some u) :
    (∃ row : SessionRow,
        (create_session st db uid T sid).1.sessions = db.sessions ++ [row]
        ∧ row.session_id = sid ∧ row.user_id = uid ∧ row.expires_at = T + 24 * 3600)
    ∧ (t < T + 24 * 3600 →
        get_user_from_session (create_session st db uid T sid).1 sid t = some u)
    ∧ (T + 24 * 3600 ≤ t →
        get_user_from_session (create_session st db uid T sid).1 sid t = none) := by
  have hsessions : (create_session st db uid T sid).1.sessions
      = db.sessions ++ [{ id := nextId (db.sessions.map SessionRow.id),
                          session_id := sid, user_id := uid,
                          expires_at := T + 24 * 3600 }] := by
    simp [create_session, hexp]
  have hleft : ∀ s ∈ db.sessions,
      (s.session_id == sid && decide (s.expires_at > t)) = false := by
    intro s hs
    have : (s.session_id == sid) = false := by
      rw [beq_eq_false_iff_ne]
      exact hfresh s hs
    simp [this]
  refine ⟨⟨_, hsessions, rfl, rfl, rfl⟩, ?_, ?_⟩
  · intro ht
    unfold get_user_from_session
    rw [hsessions, find?_append_left_none _ _ _ hleft]
    rw [List.find?_cons_of_pos _ (by simp [ht])]
    exact hu
  · intro ht
    unfold get_user_from_session
    rw [hsessions, find?_append_left_none _ _ _ hleft]
    rw [List.find?_cons_of_neg _ (by simp [ht, Nat.not_lt_of_ge ht])]
    rfl

/-- Witness for claim C5: one account with id 1, session created at T = 0 with the
default 24-hour expiry; the token resolves at second 86399 and is absent at
second 86400. -/
theorem C5_session_expiry_boundary_witness :
    get_user_from_session
        (create_session {} ⟨[⟨1, str "a@b.c", str "h"⟩], []⟩ 1 0 (str "s")).1
        (str "s") 86399
      = some ⟨1, str "a@b.c", str "h"⟩
    ∧ get_user_from_session
        (create_session {} ⟨[⟨1, str "a@b.c", str "h"⟩], []⟩ 1 0 (str "s")).1
        (str "s") 86400
      = none :=
  ⟨(C5_session_expiry_boundary {} ⟨[⟨1, str "a@b.c", str "h"⟩], []⟩ 1 0 86399
      ⟨1, str "a@b.c", str "h"⟩ (str "s") rfl (by simp) (by decide)).2.1 (by decide),
   (C5_session_expiry_boundary {} ⟨[⟨1, str "a@b.c", str "h"⟩], []⟩ 1 0 86400
      ⟨1, str "a@b.c", str "h"⟩ (str "s") rfl (by simp) (by decide)).2.2 (by decide)⟩

/-- Claim C6: signing up twice with emails equal up to letter case — the first on
a fresh email with a valid password — gives 201 then 409; the second call leaves
the database exactly as the first left it (the insert is rolled back), and
exactly one account row carries the lowercase-normalized email. -/
theorem C6_signup_case_insensitive_conflict (st : Settings) (db : DB) (t1 t2 : Nat)
    (k1 k2 e1 e2 p1 p2 : Str)
    (hcase : lower e2 = lower e1)
    (hnew : ∀ u ∈ db.users, u.email ≠ lower e1)
    (hp1 : 8 ≤ p1.length) (hq1 : p1.length ≤ 128)
    (hp2 : 8 ≤ p2.length) (hq2 : p2.length ≤ 128) :
    (signup_endpoint st db t1 k1 e1 p1).status = 201
    ∧ (signup_endpoint st (signup_endpoint st db t1 k1 e1 p1).db t2 k2 e2 p2).status = 409
    ∧ (signup_endpoint st (signup_endpoint st db t1 k1 e1 p1).db t2 k2 e2 p2).db
        = (signup_endpoint st db t1 k1 e1 p1).db
    ∧ ((signup_endpoint st (signup_endpoint st db t1 k1 e1 p1).db t2 k2 e2 p2).db.users.countP
        (fun u => u.email == lower e1)) = 1 := by
  have hany1 : (db.users.any fun u => u.email == lower e1) = false := by
    rw [List.any_eq_false]
    intro u hu
    simpa using hnew u hu
  have hA := (signup_endpoint_valid st db t1 k1 e1 p1
      (validate_password_ok p1 hp1 hq1)).trans (signup_fresh st db t1 k1 e1 p1 hany1)
  have hAdb : (signup_endpoint st db t1 k1 e1 p1).db
      = { users := db.users
            ++ [{ id := nextId (db.users.map UserRow.id),
                  email := lower e1,
                  password_hash := hash_password p1 }],
          sessions := db.sessions
            ++ [{ id := nextId (db.sessions.map SessionRow.id),
                  session_id := k1,
                  user_id := nextId (db.users.map UserRow.id),
                  expires_at := t1 + st.session_expire_hours * 3600 }] } := by
    rw [hA]
  have hAstatus : (signup_endpoint st db t1 k1 e1 p1).status = 201 := by rw [hA]
  have hany2 : ((signup_endpoint st db t1 k1 e1 p1).db.users.any
      fun u => u.email == lower e2) = true := by
    rw [hAdb, List.any_eq_true]
    refine ⟨{ id := nextId (db.users.map UserRow.id),
              email := lower e1, password_hash := hash_password p1 }, by simp, by simp [hcase]⟩
  have hB := (signup_endpoint_valid st (signup_endpoint st db t1 k1 e1 p1).db t2 k2 e2 p2
      (validate_password_ok p2 hp2 hq2)).trans
    (signup_dup st (signup_endpoint st db t1 k1 e1 p1).db t2 k2 e2 p2 hany2)
  refine ⟨hAstatus, by rw [hB], by rw [hB], ?_⟩
  rw [hB]
  show ((signup_endpoint st db t1 k1 e1 p1).db.users.countP fun u => u.email == lower e1) = 1
  rw [hAdb]
  show ((db.users ++ [({ id := nextId (db.users.map UserRow.id),
                         email := lower e1,
                         password_hash := hash_password p1 } : UserRow)]).countP
        fun u => u.email == lower e1) = 1
  rw [List.countP_append]
  have h0 : (db.users.countP fun u => u.email == lower e1) = 0 :=
    List.countP_eq_zero.mpr (fun u hu => by simpa using hnew u hu)
  simp [h0, List.countP_cons]

/-- Witness for claim C6: empty database, signup with "USER@Example.com" then with
"user@example.com". -/
theorem C6_signup_case_insensitive_conflict_witness :
    (signup_endpoint {} ⟨[], []⟩ 0 (str "k1") (str "USER@Example.com") (str "password1")).status
      = 201
    ∧ (signup_endpoint {}
        (signup_endpoint {} ⟨[], []⟩ 0 (str "k1") (str "USER@Example.com") (str "password1")).db
        7 (str "k2") (str "user@example.com") (str "password2")).status = 409
    ∧ (signup_endpoint {}
        (signup_endpoint {} ⟨[], []⟩ 0 (str "k1") (str "USER@Example.com") (str "password1")).db
        7 (str "k2") (str "user@example.com") (str "password2")).db
        = (signup_endpoint {} ⟨[], []⟩ 0 (str "k1") (str "USER@Example.com") (str "password1")).db
    ∧ ((signup_endpoint {}
        (signup_endpoint {} ⟨[], []⟩ 0 (str "k1") (str "USER@Example.com") (str "password1")).db
        7 (str "k2") (str "user@example.com") (str "password2")).db.users.countP
        (fun u => u.email == lower (str "USER@Example.com"))) = 1 :=
  C6_signup_case_insensitive_conflict {} ⟨[], []⟩ 0 7 (str "k1") (str "k2")
    (str "USER@Example.com") (str "user@example.com") (str "password1") (str "password2")
    (by decide) (by simp) (by decide) (by decide) (by decide) (by decide)

/-- Claim C7: a password shorter than 8 or longer than 128 characters is rejected
by the pydantic validator before the handler runs — the database is untouched and
the 422 detail names the violated bound — while any length from 8 through 128
passes validation. -/
theorem C7_password_length_validation (st : Settings) (db : DB) (t : Nat) (k e p : Str) :
    (p.length < 8 →
        (signup_endpoint st db t k e p).db = db
        ∧ (signup_endpoint st db t k e p).status = 422
        ∧ (signup_endpoint st db t k e p).detail
            = some (str "Password must be at least 8 characters"))
    ∧ (128 < p.length →
        (signup_endpoint st db t k e p).db = db
        ∧ (signup_endpoint st db t k e p).status = 422
        ∧ (signup_endpoint st db t k e p).detail = some (str "Password too long"))
    ∧ (8 ≤ p.length → p.length ≤ 128 → validate_password p = Except.ok p) := by
  refine ⟨?_, ?_, fun h8 h128 => validate_password_ok p h8 h128⟩
  · intro h
    have hv : validate_password p
        = Except.error (str "Password must be at least 8 characters") := by
      unfold validate_password
      rw [if_pos h]
    unfold signup_endpoint
    rw [hv]
    exact ⟨rfl, rfl, rfl⟩
  · intro h
    have hv : validate_password p = Except.error (str "Password too long") := by
      unfold validate_password
      rw [if_neg (by omega), if_pos h]
    unfold signup_endpoint
    rw [hv]
    exact ⟨rfl, rfl, rfl⟩

/-- Witness for claim C7: 7 characters rejected with the lower-bound message,
8 and 128 characters pass, 129 characters rejected with the upper-bound message. -/
theorem C7_password_length_validation_witness :
    (signup_endpoint {} ⟨[], []⟩ 0 (str "k") (str "a@b.c") (str "1234567")).status = 422
    ∧ (signup_endpoint {} ⟨[], []⟩ 0 (str "k") (str "a@b.c") (str "1234567")).detail
        = some (str "Password must be at least 8 characters")
    ∧ validate_password (str "12345678") = Except.ok (str "12345678")
    ∧ validate_password (List.replicate 128 'a') = Except.ok (List.replicate 128 'a')
    ∧ (signup_endpoint {} ⟨[], []⟩ 0 (str "k") (str "a@b.c")
        (List.replicate 129 'a')).status = 422
    ∧ (signup_endpoint {} ⟨[], []⟩ 0 (str "k") (str "a@b.c")
        (List.replicate 129 'a')).detail = some (str "Password too long") :=
  ⟨((C7_password_length_validation {} ⟨[], []⟩ 0 (str "k") (str "a@b.c")
      (str "1234567")).1 (by decide)).2.1,
   ((C7_password_length_validation {} ⟨[], []⟩ 0 (str "k") (str "a@b.c")
      (str "1234567")).1 (by decide)).2.2,
   (C7_password_length_validation {} ⟨[], []⟩ 0 (str "k") (str "a@b.c")
      (str "12345678")).2.2 (by decide) (by decide),
   (C7_password_length_validation {} ⟨[], []⟩ 0 (str "k") (str "a@b.c")
      (List.replicate 128 'a')).2.2 (by simp) (by simp),
   ((C7_password_length_validation {} ⟨[], []⟩ 0 (str "k") (str "a@b.c")
      (List.replicate 129 'a')).2.1 (by simp)).2.1,
   ((C7_password_length_validation {} ⟨[], []⟩ 0 (str "k") (str "a@b.c")
      (List.replicate 129 'a')).2.1 (by simp)).2.2⟩

/-- Claim C9: the cookie-setting helper uses Max-Age = session_expire_hours × 3600,
Path "/", and a Domain attribute exactly when the configured domain is not the
literal "localhost"; the clearing helper re-sends the same cookie name with empty
value, Max-Age 0, and httponly hard-coded to true independent of the configured
cookie_httponly. -/
theorem C9_cookie_helpers (st : Settings) (sid : Str) :
    (set_session_cookie st sid).key = str "session_id"
    ∧ (set_session_cookie st sid).value = sid
    ∧ (set_session_cookie st sid).max_age = st.session_expire_hours * 3600
    ∧ (set_session_cookie st sid).path = str "/"
    ∧ (st.cookie_domain = str "localhost" → (set_session_cookie st sid).domain = none)
    ∧ (st.cookie_domain ≠ str "localhost" →
        (set_session_cookie st sid).domain = some st.cookie_domain)
    ∧ (clear_session_cookie st).key = (set_session_cookie st sid).key
    ∧ (clear_session_cookie st).value = str ""
    ∧ (clear_session_cookie st).max_age = 0
    ∧ (clear_session_cookie st).path = str "/"
    ∧ (clear_session_cookie st).httponly = true := by
  refine ⟨rfl, rfl, rfl, rfl, ?_, ?_, rfl, rfl, rfl, rfl, rfl⟩
  · intro h
    simp [set_session_cookie, h]
  · intro h
    simp [set_session_cookie, h]

/-- Witness for claim C9: with domain "example.com" the Domain attribute is sent;
with the default "localhost" it is omitted; the clearing helper reports
httponly = true even when the configuration says false. -/
theorem C9_cookie_helpers_witness :
    (set_session_cookie { cookie_domain := str "example.com" } (str "tok")).domain
        = some (str "example.com")
    ∧ (set_session_cookie {} (str "tok")).domain = none
    ∧ (clear_session_cookie { cookie_httponly := false }).httponly = true
    ∧ (clear_session_cookie { cookie_httponly := false }).max_age = 0 :=
  ⟨(C9_cookie_helpers { cookie_domain := str "example.com" } (str "tok")).2.2.2.2.2.1
      (by decide),
   (C9_cookie_helpers {} (str "tok")).2.2.2.2.1 rfl,
   (C9_cookie_helpers { cookie_httponly := false } (str "tok")).2.2.2.2.2.2.2.2.2.2,
   (C9_cookie_helpers { cookie_httponly := false } (str "tok")).2.2.2.2.2.2.2.2.1⟩

/-- Claim C10: whenever the signup endpoint answers 409, the sessions table is
exactly as before the call and no set_cookie call was made: session creation and
cookie setting happen only on the successful-insert path. -/
theorem C10_conflict_no_session_no_cookie (st : Settings) (db : DB) (t : Nat)
    (k e p : Str)
    (h409 : (signup_endpoint st db t k e p).status = 409) :
    (signup_endpoint st db t k e p).db.sessions = db.sessions
    ∧ (signup_endpoint st db t k e p).cookie = none := by
  unfold signup_endpoint at h409 ⊢
  cases hv : validate_password p with
  | error msg =>
      rw [hv] at h409
      simp at h409
  | ok q =>
      rw [hv] at h409
      replace h409 : (signup st db t k e p).status = 409 := h409
      show (signup st db t k e p).db.sessions = db.sessions
        ∧ (signup st db t k e p).cookie = none
      by_cases hany : (db.users.any fun u => u.email == lower e) = true
      · rw [signup_dup st db t k e p hany]
        exact ⟨rfl, rfl⟩
      · rw [signup_fresh st db t k e p (by simpa using hany)] at h409
        simp at h409

/-- Witness for claim C10: signup with "A@b.c" against a database that already
holds "a@b.c" answers 409, adds no session row and sets no cookie. -/
theorem C10_conflict_no_session_no_cookie_witness :
    (signup_endpoint {} ⟨[⟨1, str "a@b.c", str "h"⟩], []⟩ 0 (str "k")
        (str "A@b.c") (str "password1")).db.sessions = []
    ∧ (signup_endpoint {} ⟨[⟨1, str "a@b.c", str "h"⟩], []⟩ 0 (str "k")
        (str "A@b.c") (str "password1")).cookie = none :=
  C10_conflict_no_session_no_cookie {} ⟨[⟨1, str "a@b.c", str "h"⟩], []⟩ 0 (str "k")
    (str "A@b.c") (str "password1") (by decide)

end AuthSystem
